import Mathlib

/-!
Verification of the datagsm-sdk-openapi-python request/response translation
layer: a shallow embedding of `_json.py`, `_http.py`, `exceptions.py`,
`api/_base.py` and the resource accessors, together with theorems about the
parameter normalizer, the envelope decoder, the error taxonomy and the
connection lifecycle.
-/

namespace DataGsm

/-- JSON values as delivered by `response.json()`.  Numbers are modelled as
integers: every numeric field in this API is integral and no claim touches
fractional numbers. -/
inductive Json where
  | null : Json
  | bool (b : Bool) : Json
  | num (n : Int) : Json
  | str (s : String) : Json
  | arr (elems : List Json) : Json
  | obj (fields : List (String × Json)) : Json
  deriving Repr, Inhabited

/-- Lookup of a key in a JSON object, mirroring Python `dict` access
(`dict.get`); the first binding wins, and parsed Python dicts have unique
keys. -/
def lookupField (fields : List (String × Json)) (key : String) : Option Json :=
  match fields with
  | [] => Option.none
  | (k, v) :: rest => if k = key then some v else lookupField rest key

/-- Calendar dates as in Python `datetime.date`: `datetime.date` enforces
`1 ≤ year ≤ 9999` and a valid month/day, captured below by `Date.valid`. -/
structure Date where
  year : Nat
  month : Nat
  day : Nat
  deriving Repr, DecidableEq, Inhabited

/-- Gregorian leap-year rule used by `datetime.date`. -/
def isLeap (y : Nat) : Bool :=
  (y % 4 = 0 && y % 100 ≠ 0) || y % 400 = 0

/-- Number of days in a month, as enforced by `datetime.date`. -/
def daysInMonth (year month : Nat) : Nat :=
  if month = 2 then (if isLeap year then 29 else 28)
  else if month = 4 ∨ month = 6 ∨ month = 9 ∨ month = 11 then 30
  else 31

/-- The invariant `datetime.date` enforces at construction time. -/
def Date.valid (d : Date) : Bool :=
  1 ≤ d.year && d.year ≤ 9999 && 1 ≤ d.month && d.month ≤ 12 &&
    1 ≤ d.day && d.day ≤ daysInMonth d.year d.month

/-- The decimal digit character for `n % 10`. -/
def digitChar (n : Nat) : Char := Char.ofNat (48 + n % 10)

/-- Two-digit zero-padded rendering, as in `%02d` for values below 100
(months and days of a valid `datetime.date` always are). -/
def pad2 (n : Nat) : List Char := [digitChar (n / 10), digitChar n]

/-- Four-digit zero-padded rendering, as in `%04d` for values below 10000
(years of a valid `datetime.date` always are). -/
def pad4 (n : Nat) : List Char :=
  [digitChar (n / 1000), digitChar (n / 100), digitChar (n / 10), digitChar n]

/-- `serialize_date` from `_json.py`: `value.isoformat()`, i.e. the
`YYYY-MM-DD` rendering of a `datetime.date`. -/
def serialize_date (d : Date) : String :=
  String.mk (pad4 d.year ++ '-' :: pad2 d.month ++ '-' :: pad2 d.day)

/-- Numeric value of a decimal digit character, if it is one. -/
def charDigit (c : Char) : Option Nat :=
  if 48 ≤ c.toNat ∧ c.toNat ≤ 57 then some (c.toNat - 48) else none

/-- Modelled from the spec: decoding a response date field.  The repository
delegates the decoding of `YYYY-MM-DD` strings into date values to its
response-model validator (not part of the repository source); the spec
states that decoding the ISO-8601 literal reproduces the calendar date.
Rejects anything that is not a ten-character `YYYY-MM-DD` literal denoting a
valid calendar date. -/
def parseISODate (s : String) : Option Date :=
  match s.data with
  | [y1, y2, y3, y4, h1, m1, m2, h2, d1, d2] =>
    if h1 = '-' ∧ h2 = '-' then
      match charDigit y1, charDigit y2, charDigit y3, charDigit y4,
            charDigit m1, charDigit m2, charDigit d1, charDigit d2 with
      | some a, some b, some c, some e, some f, some g, some h, some i =>
        let d : Date := ⟨a * 1000 + b * 100 + c * 10 + e, f * 10 + g, h * 10 + i⟩
        if d.valid then some d else none
      | _, _, _, _, _, _, _, _ => none
    else none
  | _ => none

/-- Values a request's `to_params` dictionary can hold before cleaning:
Python `None`, ints, strings, booleans and dates.  (`clean_params` also has
a `datetime` branch; no request in the repository ever passes a `datetime`,
so that branch is not modelled.) -/
inductive PValue where
  | vNone : PValue
  | vInt (i : Int) : PValue
  | vStr (s : String) : PValue
  | vBool (b : Bool) : PValue
  | vDate (d : Date) : PValue
  deriving Repr, DecidableEq

/-- `str(value).lower()` for a Python bool. -/
def boolLower (b : Bool) : String := if b then "true" else "false"

/-- `clean_params` from `_json.py`: drop `None` values, serialize dates via
`serialize_date`, lowercase booleans, pass everything else through.  Python
dicts iterate in insertion order, so both sides are ordered lists. -/
def clean_params : List (String × PValue) → List (String × PValue)
  | [] => []
  | (k, v) :: rest =>
    match v with
    | .vNone => clean_params rest
    | .vDate d => (k, .vStr (serialize_date d)) :: clean_params rest
    | .vBool b => (k, .vStr (boolLower b)) :: clean_params rest
    | .vInt i => (k, .vInt i) :: clean_params rest
    | .vStr s => (k, .vStr s) :: clean_params rest

/-- `Sex` from `models/enums.py`. -/
inductive Sex where
  | MAN | WOMAN
  deriving Repr, DecidableEq

/-- Underlying string value of a `Sex` member. -/
def Sex.value : Sex → String
  | .MAN => "MAN"
  | .WOMAN => "WOMAN"

/-- `Major` from `models/enums.py`. -/
inductive Major where
  | SW_DEVELOPMENT | SMART_IOT | AI
  deriving Repr, DecidableEq

/-- Underlying string value of a `Major` member. -/
def Major.value : Major → String
  | .SW_DEVELOPMENT => "SW_DEVELOPMENT"
  | .SMART_IOT => "SMART_IOT"
  | .AI => "AI"

/-- `ClubType` from `models/enums.py`. -/
inductive ClubType where
  | MAJOR_CLUB | JOB_CLUB | AUTONOMOUS_CLUB
  deriving Repr, DecidableEq

/-- Underlying string value of a `ClubType` member. -/
def ClubType.value : ClubType → String
  | .MAJOR_CLUB => "MAJOR_CLUB"
  | .JOB_CLUB => "JOB_CLUB"
  | .AUTONOMOUS_CLUB => "AUTONOMOUS_CLUB"

/-- `StudentRole` from `models/enums.py`. -/
inductive StudentRole where
  | GENERAL_STUDENT | STUDENT_COUNCIL | DORMITORY_MANAGER | GRADUATE
  deriving Repr, DecidableEq

/-- Underlying string value of a `StudentRole` member. -/
def StudentRole.value : StudentRole → String
  | .GENERAL_STUDENT => "GENERAL_STUDENT"
  | .STUDENT_COUNCIL => "STUDENT_COUNCIL"
  | .DORMITORY_MANAGER => "DORMITORY_MANAGER"
  | .GRADUATE => "GRADUATE"

/-- `SortDirection` from `models/enums.py`. -/
inductive SortDirection where
  | ASC | DESC
  deriving Repr, DecidableEq

/-- Underlying string value of a `SortDirection` member. -/
def SortDirection.value : SortDirection → String
  | .ASC => "ASC"
  | .DESC => "DESC"

/-- `StudentSortBy` from `models/enums.py`. -/
inductive StudentSortBy where
  | ID | NAME | EMAIL | STUDENT_NUMBER | GRADE | CLASS_NUM | NUMBER
  | MAJOR | ROLE | SEX | DORMITORY_ROOM | IS_LEAVE_SCHOOL
  deriving Repr, DecidableEq

/-- Underlying string value of a `StudentSortBy` member. -/
def StudentSortBy.value : StudentSortBy → String
  | .ID => "ID"
  | .NAME => "NAME"
  | .EMAIL => "EMAIL"
  | .STUDENT_NUMBER => "STUDENT_NUMBER"
  | .GRADE => "GRADE"
  | .CLASS_NUM => "CLASS_NUM"
  | .NUMBER => "NUMBER"
  | .MAJOR => "MAJOR"
  | .ROLE => "ROLE"
  | .SEX => "SEX"
  | .DORMITORY_ROOM => "DORMITORY_ROOM"
  | .IS_LEAVE_SCHOOL => "IS_LEAVE_SCHOOL"

/-- `ClubSortBy` from `models/enums.py`. -/
inductive ClubSortBy where
  | ID | NAME | TYPE
  deriving Repr, DecidableEq

/-- Underlying string value of a `ClubSortBy` member. -/
def ClubSortBy.value : ClubSortBy → String
  | .ID => "ID"
  | .NAME => "NAME"
  | .TYPE => "TYPE"

/-- `ProjectSortBy` from `models/enums.py`. -/
inductive ProjectSortBy where
  | ID | NAME
  deriving Repr, DecidableEq

/-- Underlying string value of a `ProjectSortBy` member. -/
def ProjectSortBy.value : ProjectSortBy → String
  | .ID => "ID"
  | .NAME => "NAME"

/-- Translation of `x if x is not None else None` positions in the
`to_params` tables: an optional int field. -/
def optInt : Option Int → PValue
  | Option.none => .vNone
  | some i => .vInt i

/-- An optional string field in a `to_params` table. -/
def optStr : Option String → PValue
  | Option.none => .vNone
  | some s => .vStr s

/-- An optional boolean field in a `to_params` table. -/
def optBool : Option Bool → PValue
  | Option.none => .vNone
  | some b => .vBool b

/-- An optional date field in a `to_params` table. -/
def optDate : Option Date → PValue
  | Option.none => .vNone
  | some d => .vDate d

/-- `self.field.value if self.field else None` for an enum-valued field. -/
def optEnum {α : Type} (value : α → String) : Option α → PValue
  | Option.none => .vNone
  | some x => .vStr (value x)

/-- `StudentRequest` from `api/student.py`, with its dataclass defaults. -/
structure StudentRequest where
  student_id : Option Int := Option.none
  name : Option String := Option.none
  email : Option String := Option.none
  grade : Option Int := Option.none
  class_num : Option Int := Option.none
  number : Option Int := Option.none
  sex : Option Sex := Option.none
  role : Option StudentRole := Option.none
  dormitory_room : Option Int := Option.none
  is_leave_school : Option Bool := Option.none
  is_graduate : Option Bool := Option.none
  page : Int := 0
  size : Int := 300
  sort_by : Option StudentSortBy := Option.none
  sort_direction : SortDirection := .ASC
  deriving Repr, DecidableEq

/-- `StudentRequest.to_params` from `api/student.py`: the fixed
logical-name → wire-name table, in the dict insertion order of the source. -/
def StudentRequest.to_params (r : StudentRequest) : List (String × PValue) :=
  [("studentId", optInt r.student_id),
   ("name", optStr r.name),
   ("email", optStr r.email),
   ("grade", optInt r.grade),
   ("classNum", optInt r.class_num),
   ("number", optInt r.number),
   ("sex", optEnum Sex.value r.sex),
   ("role", optEnum StudentRole.value r.role),
   ("dormitoryRoom", optInt r.dormitory_room),
   ("isLeaveSchool", optBool r.is_leave_school),
   ("isGraduated", optBool r.is_graduate),
   ("page", .vInt r.page),
   ("size", .vInt r.size),
   ("sortBy", optEnum StudentSortBy.value r.sort_by),
   ("sortDirection", .vStr r.sort_direction.value)]

/-- `ClubRequest` from `api/club.py`, with its dataclass defaults. -/
structure ClubRequest where
  club_id : Option Int := Option.none
  club_name : Option String := Option.none
  club_type : Option ClubType := Option.none
  page : Int := 0
  size : Int := 100
  include_leader_in_participants : Bool := false
  sort_by : Option ClubSortBy := Option.none
  sort_direction : SortDirection := .ASC
  deriving Repr, DecidableEq

/-- `ClubRequest.to_params` from `api/club.py`. -/
def ClubRequest.to_params (r : ClubRequest) : List (String × PValue) :=
  [("clubId", optInt r.club_id),
   ("clubName", optStr r.club_name),
   ("clubType", optEnum ClubType.value r.club_type),
   ("page", .vInt r.page),
   ("size", .vInt r.size),
   ("includeLeaderInParticipants", .vBool r.include_leader_in_participants),
   ("sortBy", optEnum ClubSortBy.value r.sort_by),
   ("sortDirection", .vStr r.sort_direction.value)]

/-- `ProjectRequest` from `api/project.py`, with its dataclass defaults. -/
structure ProjectRequest where
  project_id : Option Int := Option.none
  project_name : Option String := Option.none
  club_id : Option Int := Option.none
  page : Int := 0
  size : Int := 100
  sort_by : Option ProjectSortBy := Option.none
  sort_direction : SortDirection := .ASC
  deriving Repr, DecidableEq

/-- `ProjectRequest.to_params` from `api/project.py`. -/
def ProjectRequest.to_params (r : ProjectRequest) : List (String × PValue) :=
  [("projectId", optInt r.project_id),
   ("projectName", optStr r.project_name),
   ("clubId", optInt r.club_id),
   ("page", .vInt r.page),
   ("size", .vInt r.size),
   ("sortBy", optEnum ProjectSortBy.value r.sort_by),
   ("sortDirection", .vStr r.sort_direction.value)]

/-- `MealRequest` from `api/neis.py`. -/
structure MealRequest where
  date : Option Date := Option.none
  from_date : Option Date := Option.none
  to_date : Option Date := Option.none
  deriving Repr, DecidableEq

/-- `MealRequest.to_params` from `api/neis.py`. -/
def MealRequest.to_params (r : MealRequest) : List (String × PValue) :=
  [("date", optDate r.date),
   ("fromDate", optDate r.from_date),
   ("toDate", optDate r.to_date)]

/-- `ScheduleRequest` from `api/neis.py`. -/
structure ScheduleRequest where
  date : Option Date := Option.none
  from_date : Option Date := Option.none
  to_date : Option Date := Option.none
  deriving Repr, DecidableEq

/-- `ScheduleRequest.to_params` from `api/neis.py`. -/
def ScheduleRequest.to_params (r : ScheduleRequest) : List (String × PValue) :=
  [("date", optDate r.date),
   ("fromDate", optDate r.from_date),
   ("toDate", optDate r.to_date)]

/-- The underlying `httpx` exception wrapped by a network error, as caught
in `HttpClient.get`: connect errors, timeouts, and the remaining
`httpx.HTTPError` family.  The string is the textual form of the underlying
exception (`str(e)`). -/
inductive NetCause where
  | connectError (detail : String)
  | timeoutError (detail : String)
  | otherHttpError (detail : String)
  deriving Repr, DecidableEq

/-- One key of a pydantic error location path: a field name or a list
index. -/
inductive LocKey where
  | fld (name : String)
  | idx (i : Nat)
  deriving Repr, DecidableEq

/-- One entry of `pydantic.ValidationError.errors()`, reduced to the parts
the SDK surface exposes: the location path and the message. -/
structure FieldError where
  loc : List LocKey
  msg : String
  deriving Repr, DecidableEq

/-- The exception taxonomy of `exceptions.py`: one constructor per class,
carrying exactly the attributes that class stores.  Subclasses with a fixed
status code do not store one of their own; the accessor `statusCode` below
mirrors the value their `__init__` passes to the base class. -/
inductive DGError where
  | dataGsm (message : String) (status_code : Option Nat) (response_body : Option Json)
  | badRequest (message : String) (response_body : Option Json)
  | unauthorized (message : String) (response_body : Option Json)
  | forbidden (message : String) (response_body : Option Json)
  | notFound (message : String) (response_body : Option Json)
  | rateLimit (message : String) (response_body : Option Json)
  | serverError (message : String) (status_code : Nat) (response_body : Option Json)
  | network (message : String) (original_exception : Option NetCause)
  | validation (message : String) (validation_errors : List FieldError)
  deriving Repr

/-- `self.message` as set by `DataGsmException.__init__`. -/
def DGError.message : DGError → String
  | .dataGsm m _ _ => m
  | .badRequest m _ => m
  | .unauthorized m _ => m
  | .forbidden m _ => m
  | .notFound m _ => m
  | .rateLimit m _ => m
  | .serverError m _ _ => m
  | .network m _ => m
  | .validation m _ => m

/-- `self.status_code` as set by each `__init__` chain in `exceptions.py`:
the fixed-code subclasses pass their code to the base class; network and
validation errors leave it `None`. -/
def DGError.statusCode : DGError → Option Nat
  | .dataGsm _ sc _ => sc
  | .badRequest _ _ => some 400
  | .unauthorized _ _ => some 401
  | .forbidden _ _ => some 403
  | .notFound _ _ => some 404
  | .rateLimit _ _ => some 429
  | .serverError _ sc _ => some sc
  | .network _ _ => Option.none
  | .validation _ _ => Option.none

/-- `self.original_exception`: only `NetworkException` stores one. -/
def DGError.originalException : DGError → Option NetCause
  | .network _ cause => cause
  | _ => Option.none

/-- `DataGsmException.__str__`: a bracketed status code before the message
when `self.status_code` is truthy (Python truthiness: `None` and `0` are
falsy), otherwise just the message. -/
def DGError.strForm (e : DGError) : String :=
  match e.statusCode with
  | some c => if c ≠ 0 then "[" ++ toString c ++ "] " ++ e.message else e.message
  | Option.none => e.message

/-- `BadRequestException.__init__` as a function of its arguments. -/
def mkBadRequestException (message : String) (response_body : Option Json) : DGError :=
  .badRequest message response_body

/-- `UnauthorizedException.__init__` as a function of its arguments. -/
def mkUnauthorizedException (message : String) (response_body : Option Json) : DGError :=
  .unauthorized message response_body

/-- `ForbiddenException.__init__` as a function of its arguments. -/
def mkForbiddenException (message : String) (response_body : Option Json) : DGError :=
  .forbidden message response_body

/-- `NotFoundException.__init__` as a function of its arguments. -/
def mkNotFoundException (message : String) (response_body : Option Json) : DGError :=
  .notFound message response_body

/-- `RateLimitException.__init__` as a function of its arguments. -/
def mkRateLimitException (message : String) (response_body : Option Json) : DGError :=
  .rateLimit message response_body

/-- `ServerErrorException.__init__` as a function of its arguments. -/
def mkServerErrorException (message : String) (status_code : Nat) (response_body : Option Json) : DGError :=
  .serverError message status_code response_body

/-- `DataGsmException.__init__` as a function of its arguments. -/
def mkDataGsmException (message : String) (status_code : Option Nat) (response_body : Option Json) : DGError :=
  .dataGsm message status_code response_body

/-- `NetworkException.__init__` as a function of its arguments. -/
def mkNetworkException (message : String) (original_exception : Option NetCause) : DGError :=
  .network message original_exception

/-- `ValidationException.__init__` as a function of its arguments:
`self.validation_errors = validation_errors or []`, so a `None` argument
(and the absent-argument default, which is `None`) stores the empty list. -/
def mkValidationException (message : String) (validation_errors : Option (List FieldError)) : DGError :=
  .validation message (validation_errors.getD [])

mutual

/-- Textual form of a JSON value, standing in for Python string conversion
of the object `response.json()` produced.  It is consulted only when a
response body carries a non-string `message` field; no theorem below
depends on its exact output. -/
def Json.render : Json → String
  | .null => "None"
  | .bool b => if b then "True" else "False"
  | .num n => toString n
  | .str s => s
  | .arr elems => "[" ++ Json.renderList elems ++ "]"
  | .obj fields => "\x7b" ++ Json.renderFields fields ++ "\x7d"

/-- Comma-separated rendering of a JSON array body. -/
def Json.renderList : List Json → String
  | [] => ""
  | [x] => Json.render x
  | x :: xs => Json.render x ++ ", " ++ Json.renderList xs

/-- Comma-separated rendering of a JSON object body. -/
def Json.renderFields : List (String × Json) → String
  | [] => ""
  | [(k, v)] => k ++ ": " ++ Json.render v
  | (k, v) :: fs => k ++ ": " ++ Json.render v ++ ", " ++ Json.renderFields fs

end

/-- An HTTP response as `HttpClient` observes it: the status code, the raw
text, and the result of `response.json()` (`Option.none` when the body is
not valid JSON, in which case `_handle_error` falls into its `except`
branch). -/
structure HttpResponse where
  status : Nat
  text : String
  jsonBody : Option Json
  deriving Repr

/-- The `try` block at the top of `HttpClient._handle_error`: the error
message is the body's `message` field when the body is a JSON object
carrying one (rendered as text when it is not itself a string), otherwise
`response.text`, falling back to `"HTTP <code> error"` when the body is not
a JSON object (`.get` fails on non-dicts) or not JSON at all and the text
is empty.  `response.text` also backs a dict body without `message`. -/
def extractedMessage (r : HttpResponse) : String :=
  match r.jsonBody with
  | some (Json.obj fields) =>
    match lookupField fields "message" with
    | some (Json.str s) => s
    | some v => Json.render v
    | Option.none => r.text
  | _ => if r.text = "" then "HTTP " ++ toString r.status ++ " error" else r.text

/-- The `error_body` variable of `HttpClient._handle_error`: the parsed
body when it is a JSON object (so that `.get` succeeded), otherwise `None`
(the `except Exception` branch). -/
def extractedBody (r : HttpResponse) : Option Json :=
  match r.jsonBody with
  | some (Json.obj fields) => some (Json.obj fields)
  | _ => Option.none

/-- `HttpClient._handle_error` from `_http.py`: dispatch a non-2xx response
to the taxonomy by status code. -/
def handle_error (r : HttpResponse) : DGError :=
  let msg := extractedMessage r
  let body := extractedBody r
  if r.status = 400 then mkBadRequestException msg body
  else if r.status = 401 then mkUnauthorizedException msg body
  else if r.status = 403 then mkForbiddenException msg body
  else if r.status = 404 then mkNotFoundException msg body
  else if r.status = 429 then mkRateLimitException msg body
  else if 500 ≤ r.status ∧ r.status < 600 then mkServerErrorException msg r.status body
  else mkDataGsmException msg (some r.status) body

/-- What one attempted HTTP exchange can come back as: a response, or one
of the `httpx` failure families caught in `HttpClient.get` (connect error,
timeout, other `httpx.HTTPError`) with the text of the underlying
exception. -/
inductive TransportOutcome where
  | response (r : HttpResponse)
  | connectFailure (detail : String)
  | timeoutFailure (detail : String)
  | otherHttpFailure (detail : String)
  deriving Repr

/-- What `HttpClient.get` can raise: a taxonomy member, or the raw JSON
decode failure that propagates uncaught when a 2xx body is not JSON
(`response.json()` is outside the `httpx` exception families). -/
inductive GetRaise where
  | api (e : DGError)
  | jsonDecodeFailure
  deriving Repr

/-- `HttpClient.get` from `_http.py`.  `response.raise_for_status()` (httpx)
raises for every status outside 200-299, which `_handle_error` then maps;
connect errors and timeouts become a `NetworkException` with the underlying
exception as cause, as does any remaining `httpx.HTTPError`. -/
def HttpClient.get (o : TransportOutcome) : Except GetRaise Json :=
  match o with
  | .response r =>
    if 200 ≤ r.status ∧ r.status < 300 then
      match r.jsonBody with
      | some j => .ok j
      | Option.none => .error .jsonDecodeFailure
    else .error (.api (handle_error r))
  | .connectFailure d =>
    .error (.api (mkNetworkException ("Network error: " ++ d) (some (.connectError d))))
  | .timeoutFailure d =>
    .error (.api (mkNetworkException ("Network error: " ++ d) (some (.timeoutError d))))
  | .otherHttpFailure d =>
    .error (.api (mkNetworkException ("HTTP error: " ++ d) (some (.otherHttpError d))))

/-- Result of validating part of a response against a pydantic model: the
value, or the accumulated list of field-level errors. -/
abbrev DecodeResult (α : Type) := Except (List FieldError) α

/-- Applicative combination of two validation results, accumulating errors
in field-declaration order exactly as pydantic reports them. -/
def accA {α β : Type} (f : DecodeResult (α → β)) (x : DecodeResult α) : DecodeResult β :=
  match f, x with
  | .ok g, .ok a => .ok (g a)
  | .error e1, .error e2 => .error (e1 ++ e2)
  | .error e1, .ok _ => .error e1
  | .ok _, .error e2 => .error e2

/-- First key of `keys` present in the object, mirroring pydantic's
`populate_by_name=True` lookup (validation alias first, then the field
name). -/
def findField (fields : List (String × Json)) : List String → Option Json
  | [] => Option.none
  | k :: ks =>
    match lookupField fields k with
    | some v => some v
    | Option.none => findField fields ks

/-- A required model field: absent input is the pydantic `Field required`
error at the field's location, present input is validated by `dec`. -/
def reqField {α : Type} (fields : List (String × Json)) (keys : List String)
    (loc : List LocKey) (dec : Json → DecodeResult α) : DecodeResult α :=
  match findField fields keys with
  | some v => dec v
  | Option.none => .error [⟨loc, "Field required"⟩]

/-- An `Optional[T] = None` model field: absent or JSON-null input yields
`None`, anything else is validated by `dec`. -/
def optField {α : Type} (fields : List (String × Json)) (keys : List String)
    (dec : Json → DecodeResult α) : DecodeResult (Option α) :=
  match findField fields keys with
  | Option.none => .ok Option.none
  | some Json.null => .ok Option.none
  | some v => (dec v).map some

/-- A non-optional field with a default (the `default_factory=list`
fields): absent input yields the default, present input — including
JSON null — is validated by `dec`. -/
def defField {α : Type} (fields : List (String × Json)) (keys : List String)
    (deflt : α) (dec : Json → DecodeResult α) : DecodeResult α :=
  match findField fields keys with
  | Option.none => .ok deflt
  | some v => dec v

/-- Validation of a `str` field.  (pydantic lax-mode coercions of non-string
scalars are not modelled; no claim depends on them.) -/
def decodeStr (loc : List LocKey) : Json → DecodeResult String
  | Json.str s => .ok s
  | _ => .error [⟨loc, "Input should be a valid string"⟩]

/-- Validation of an `int` field. -/
def decodeInt (loc : List LocKey) : Json → DecodeResult Int
  | Json.num n => .ok n
  | _ => .error [⟨loc, "Input should be a valid integer"⟩]

/-- Validation of a `bool` field. -/
def decodeBool (loc : List LocKey) : Json → DecodeResult Bool
  | Json.bool b => .ok b
  | _ => .error [⟨loc, "Input should be a valid boolean"⟩]

/-- Validation of the `grade` field of `Student`, which carries
`ge=1, le=3` constraints. -/
def decodeGrade (loc : List LocKey) : Json → DecodeResult Int
  | Json.num n =>
    if n < 1 then .error [⟨loc, "Input should be greater than or equal to 1"⟩]
    else if 3 < n then .error [⟨loc, "Input should be less than or equal to 3"⟩]
    else .ok n
  | _ => .error [⟨loc, "Input should be a valid integer"⟩]

/-- Validation of a `list[T]` field element by element, accumulating the
errors of every failing element with its index in the location path, as
pydantic does. -/
def decodeListAux {α : Type} (dec : List LocKey → Json → DecodeResult α)
    (loc : List LocKey) (i : Nat) : List Json → DecodeResult (List α)
  | [] => .ok []
  | x :: xs => accA (accA (.ok List.cons) (dec (loc ++ [.idx i]) x)) (decodeListAux dec loc (i + 1) xs)

/-- Validation of a `list[T]` field: the input must be a JSON array. -/
def decodeList {α : Type} (dec : List LocKey → Json → DecodeResult α)
    (loc : List LocKey) : Json → DecodeResult (List α)
  | Json.arr elems => decodeListAux dec loc 0 elems
  | _ => .error [⟨loc, "Input should be a valid list"⟩]

/-- Member of `Sex` with the given wire value, if any — a closed set. -/
def Sex.fromWire (s : String) : Option Sex :=
  if s = "MAN" then some .MAN
  else if s = "WOMAN" then some .WOMAN
  else Option.none

/-- Validation of a `Sex`-valued field; a wire value outside the closed
enum set is a field-level error. -/
def decodeSex (loc : List LocKey) : Json → DecodeResult Sex
  | Json.str s =>
    match Sex.fromWire s with
    | some v => .ok v
    | Option.none => .error [⟨loc, "Input should be MAN or WOMAN"⟩]
  | _ => .error [⟨loc, "Input should be MAN or WOMAN"⟩]

/-- Member of `Major` with the given wire value, if any. -/
def Major.fromWire (s : String) : Option Major :=
  if s = "SW_DEVELOPMENT" then some .SW_DEVELOPMENT
  else if s = "SMART_IOT" then some .SMART_IOT
  else if s = "AI" then some .AI
  else Option.none

/-- Validation of a `Major`-valued field. -/
def decodeMajor (loc : List LocKey) : Json → DecodeResult Major
  | Json.str s =>
    match Major.fromWire s with
    | some v => .ok v
    | Option.none => .error [⟨loc, "Input should be SW_DEVELOPMENT, SMART_IOT or AI"⟩]
  | _ => .error [⟨loc, "Input should be SW_DEVELOPMENT, SMART_IOT or AI"⟩]

/-- Member of `ClubType` with the given wire value, if any. -/
def ClubType.fromWire (s : String) : Option ClubType :=
  if s = "MAJOR_CLUB" then some .MAJOR_CLUB
  else if s = "JOB_CLUB" then some .JOB_CLUB
  else if s = "AUTONOMOUS_CLUB" then some .AUTONOMOUS_CLUB
  else Option.none

/-- Validation of a `ClubType`-valued field; an unknown wire value is a
field-level error at the field's location, never accepted. -/
def decodeClubType (loc : List LocKey) : Json → DecodeResult ClubType
  | Json.str s =>
    match ClubType.fromWire s with
    | some v => .ok v
    | Option.none => .error [⟨loc, "Input should be MAJOR_CLUB, JOB_CLUB or AUTONOMOUS_CLUB"⟩]
  | _ => .error [⟨loc, "Input should be MAJOR_CLUB, JOB_CLUB or AUTONOMOUS_CLUB"⟩]

/-- Member of `StudentRole` with the given wire value, if any. -/
def StudentRole.fromWire (s : String) : Option StudentRole :=
  if s = "GENERAL_STUDENT" then some .GENERAL_STUDENT
  else if s = "STUDENT_COUNCIL" then some .STUDENT_COUNCIL
  else if s = "DORMITORY_MANAGER" then some .DORMITORY_MANAGER
  else if s = "GRADUATE" then some .GRADUATE
  else Option.none

/-- Validation of a `StudentRole`-valued field. -/
def decodeStudentRole (loc : List LocKey) : Json → DecodeResult StudentRole
  | Json.str s =>
    match StudentRole.fromWire s with
    | some v => .ok v
    | Option.none =>
      .error [⟨loc, "Input should be GENERAL_STUDENT, STUDENT_COUNCIL, DORMITORY_MANAGER or GRADUATE"⟩]
  | _ =>
    .error [⟨loc, "Input should be GENERAL_STUDENT, STUDENT_COUNCIL, DORMITORY_MANAGER or GRADUATE"⟩]

/-- `Club` from `models/club.py`. -/
structure Club where
  id : Int
  name : String
  type : ClubType
  deriving Repr, DecidableEq

/-- Validation of a nested `Club` model. -/
def Club.decode (loc : List LocKey) : Json → DecodeResult Club
  | Json.obj fields =>
    let r1 := accA (.ok Club.mk) (reqField fields ["id"] (loc ++ [.fld "id"]) (decodeInt (loc ++ [.fld "id"])))
    let r2 := accA r1 (reqField fields ["name"] (loc ++ [.fld "name"]) (decodeStr (loc ++ [.fld "name"])))
    accA r2 (reqField fields ["type"] (loc ++ [.fld "type"]) (decodeClubType (loc ++ [.fld "type"])))
  | _ => .error [⟨loc, "Input should be a valid dictionary"⟩]

/-- `ParticipantInfo` from `models/project.py`. -/
structure ParticipantInfo where
  id : Int
  name : String
  email : String
  student_number : Int
  major : Major
  sex : Sex
  deriving Repr, DecidableEq

/-- Validation of a nested `ParticipantInfo` model (field aliases as
declared: `studentNumber`, with `populate_by_name=True`). -/
def ParticipantInfo.decode (loc : List LocKey) : Json → DecodeResult ParticipantInfo
  | Json.obj fields =>
    let r1 := accA (.ok ParticipantInfo.mk) (reqField fields ["id"] (loc ++ [.fld "id"]) (decodeInt (loc ++ [.fld "id"])))
    let r2 := accA r1 (reqField fields ["name"] (loc ++ [.fld "name"]) (decodeStr (loc ++ [.fld "name"])))
    let r3 := accA r2 (reqField fields ["email"] (loc ++ [.fld "email"]) (decodeStr (loc ++ [.fld "email"])))
    let r4 := accA r3 (reqField fields ["studentNumber", "student_number"] (loc ++ [.fld "studentNumber"]) (decodeInt (loc ++ [.fld "studentNumber"])))
    let r5 := accA r4 (reqField fields ["major"] (loc ++ [.fld "major"]) (decodeMajor (loc ++ [.fld "major"])))
    accA r5 (reqField fields ["sex"] (loc ++ [.fld "sex"]) (decodeSex (loc ++ [.fld "sex"])))
  | _ => .error [⟨loc, "Input should be a valid dictionary"⟩]

/-- `ClubDetail` from `models/club.py`. -/
structure ClubDetail where
  id : Int
  name : String
  type : ClubType
  leader : ParticipantInfo
  participants : List ParticipantInfo
  deriving Repr, DecidableEq

/-- Validation of a nested `ClubDetail` model. -/
def ClubDetail.decode (loc : List LocKey) : Json → DecodeResult ClubDetail
  | Json.obj fields =>
    let r1 := accA (.ok ClubDetail.mk) (reqField fields ["id"] (loc ++ [.fld "id"]) (decodeInt (loc ++ [.fld "id"])))
    let r2 := accA r1 (reqField fields ["name"] (loc ++ [.fld "name"]) (decodeStr (loc ++ [.fld "name"])))
    let r3 := accA r2 (reqField fields ["type"] (loc ++ [.fld "type"]) (decodeClubType (loc ++ [.fld "type"])))
    let r4 := accA r3 (reqField fields ["leader"] (loc ++ [.fld "leader"]) (ParticipantInfo.decode (loc ++ [.fld "leader"])))
    accA r4 (defField fields ["participants"] [] (decodeList ParticipantInfo.decode (loc ++ [.fld "participants"])))
  | _ => .error [⟨loc, "Input should be a valid dictionary"⟩]

/-- `ClubResponse` from `models/club.py`. -/
structure ClubResponse where
  total_pages : Int
  total_elements : Int
  clubs : List ClubDetail
  deriving Repr, DecidableEq

/-- Validation of the `ClubResponse` payload. -/
def ClubResponse.decode (loc : List LocKey) : Json → DecodeResult ClubResponse
  | Json.obj fields =>
    let r1 := accA (.ok ClubResponse.mk) (reqField fields ["totalPages", "total_pages"] (loc ++ [.fld "totalPages"]) (decodeInt (loc ++ [.fld "totalPages"])))
    let r2 := accA r1 (reqField fields ["totalElements", "total_elements"] (loc ++ [.fld "totalElements"]) (decodeInt (loc ++ [.fld "totalElements"])))
    accA r2 (defField fields ["clubs"] [] (decodeList ClubDetail.decode (loc ++ [.fld "clubs"])))
  | _ => .error [⟨loc, "Input should be a valid dictionary"⟩]

/-- `Student` from `models/student.py`. -/
structure Student where
  id : Int
  name : String
  sex : Sex
  email : String
  grade : Int
  class_num : Int
  number : Int
  student_number : Int
  major : Major
  role : StudentRole
  dormitory_floor : Option Int
  dormitory_room : Option Int
  is_leave_school : Bool
  major_club : Option Club
  job_club : Option Club
  autonomous_club : Option Club
  deriving Repr, DecidableEq

/-- Errors carried by a validation result (empty when it succeeded). -/
def errsOf {α : Type} : DecodeResult α → List FieldError
  | .ok _ => []
  | .error es => es

/-- Validation of a nested `Student` model, fields in declaration order
with their declared aliases.  The sixteen per-field results are combined
exactly as pydantic does: all sixteen are validated, their errors are
accumulated in declaration order, and the model is built only when every
field validated. -/
def Student.decode (loc : List LocKey) : Json → DecodeResult Student
  | Json.obj fields =>
    let f1 : DecodeResult Int := reqField fields ["id"] (loc ++ [.fld "id"]) (decodeInt (loc ++ [.fld "id"]))
    let f2 : DecodeResult String := reqField fields ["name"] (loc ++ [.fld "name"]) (decodeStr (loc ++ [.fld "name"]))
    let f3 : DecodeResult Sex := reqField fields ["sex"] (loc ++ [.fld "sex"]) (decodeSex (loc ++ [.fld "sex"]))
    let f4 : DecodeResult String := reqField fields ["email"] (loc ++ [.fld "email"]) (decodeStr (loc ++ [.fld "email"]))
    let f5 : DecodeResult Int := reqField fields ["grade"] (loc ++ [.fld "grade"]) (decodeGrade (loc ++ [.fld "grade"]))
    let f6 : DecodeResult Int := reqField fields ["classNum", "class_num"] (loc ++ [.fld "classNum"]) (decodeInt (loc ++ [.fld "classNum"]))
    let f7 : DecodeResult Int := reqField fields ["number"] (loc ++ [.fld "number"]) (decodeInt (loc ++ [.fld "number"]))
    let f8 : DecodeResult Int := reqField fields ["studentNumber", "student_number"] (loc ++ [.fld "studentNumber"]) (decodeInt (loc ++ [.fld "studentNumber"]))
    let f9 : DecodeResult Major := reqField fields ["major"] (loc ++ [.fld "major"]) (decodeMajor (loc ++ [.fld "major"]))
    let f10 : DecodeResult StudentRole := reqField fields ["role"] (loc ++ [.fld "role"]) (decodeStudentRole (loc ++ [.fld "role"]))
    let f11 : DecodeResult (Option Int) := optField fields ["dormitoryFloor", "dormitory_floor"] (decodeInt (loc ++ [.fld "dormitoryFloor"]))
    let f12 : DecodeResult (Option Int) := optField fields ["dormitoryRoom", "dormitory_room"] (decodeInt (loc ++ [.fld "dormitoryRoom"]))
    let f13 : DecodeResult Bool := reqField fields ["isLeaveSchool", "is_leave_school"] (loc ++ [.fld "isLeaveSchool"]) (decodeBool (loc ++ [.fld "isLeaveSchool"]))
    let f14 : DecodeResult (Option Club) := optField fields ["majorClub", "major_club"] (Club.decode (loc ++ [.fld "majorClub"]))
    let f15 : DecodeResult (Option Club) := optField fields ["jobClub", "job_club"] (Club.decode (loc ++ [.fld "jobClub"]))
    let f16 : DecodeResult (Option Club) := optField fields ["autonomousClub", "autonomous_club"] (Club.decode (loc ++ [.fld "autonomousClub"]))
    match f1, f2, f3, f4, f5, f6, f7, f8, f9, f10, f11, f12, f13, f14, f15, f16 with
    | .ok v1, .ok v2, .ok v3, .ok v4, .ok v5, .ok v6, .ok v7, .ok v8, .ok v9,
      .ok v10, .ok v11, .ok v12, .ok v13, .ok v14, .ok v15, .ok v16 =>
      .ok ⟨v1, v2, v3, v4, v5, v6, v7, v8, v9, v10, v11, v12, v13, v14, v15, v16⟩
    | _, _, _, _, _, _, _, _, _, _, _, _, _, _, _, _ =>
      .error (errsOf f1 ++ errsOf f2 ++ errsOf f3 ++ errsOf f4 ++ errsOf f5 ++
        errsOf f6 ++ errsOf f7 ++ errsOf f8 ++ errsOf f9 ++ errsOf f10 ++
        errsOf f11 ++ errsOf f12 ++ errsOf f13 ++ errsOf f14 ++ errsOf f15 ++ errsOf f16)
  | _ => .error [⟨loc, "Input should be a valid dictionary"⟩]

/-- `StudentResponse` from `models/student.py`. -/
structure StudentResponse where
  students : List Student
  total_elements : Int
  total_pages : Int
  deriving Repr, DecidableEq

/-- Validation of the `StudentResponse` payload. -/
def StudentResponse.decode (loc : List LocKey) : Json → DecodeResult StudentResponse
  | Json.obj fields =>
    let r1 := accA (.ok StudentResponse.mk) (defField fields ["students"] [] (decodeList Student.decode (loc ++ [.fld "students"])))
    let r2 := accA r1 (reqField fields ["totalElements", "total_elements"] (loc ++ [.fld "totalElements"]) (decodeInt (loc ++ [.fld "totalElements"])))
    accA r2 (reqField fields ["totalPages", "total_pages"] (loc ++ [.fld "totalPages"]) (decodeInt (loc ++ [.fld "totalPages"])))
  | _ => .error [⟨loc, "Input should be a valid dictionary"⟩]

/-- `Project` from `models/project.py`. -/
structure Project where
  id : Int
  name : String
  description : Option String
  club : Option Club
  participants : List ParticipantInfo
  deriving Repr, DecidableEq

/-- Validation of a nested `Project` model. -/
def Project.decode (loc : List LocKey) : Json → DecodeResult Project
  | Json.obj fields =>
    let r1 := accA (.ok Project.mk) (reqField fields ["id"] (loc ++ [.fld "id"]) (decodeInt (loc ++ [.fld "id"])))
    let r2 := accA r1 (reqField fields ["name"] (loc ++ [.fld "name"]) (decodeStr (loc ++ [.fld "name"])))
    let r3 := accA r2 (optField fields ["description"] (decodeStr (loc ++ [.fld "description"])))
    let r4 := accA r3 (optField fields ["club"] (Club.decode (loc ++ [.fld "club"])))
    accA r4 (defField fields ["participants"] [] (decodeList ParticipantInfo.decode (loc ++ [.fld "participants"])))
  | _ => .error [⟨loc, "Input should be a valid dictionary"⟩]

/-- `ProjectResponse` from `models/project.py`. -/
structure ProjectResponse where
  total_pages : Int
  total_elements : Int
  projects : List Project
  deriving Repr, DecidableEq

/-- Validation of the `ProjectResponse` payload. -/
def ProjectResponse.decode (loc : List LocKey) : Json → DecodeResult ProjectResponse
  | Json.obj fields =>
    let r1 := accA (.ok ProjectResponse.mk) (reqField fields ["totalPages", "total_pages"] (loc ++ [.fld "totalPages"]) (decodeInt (loc ++ [.fld "totalPages"])))
    let r2 := accA r1 (reqField fields ["totalElements", "total_elements"] (loc ++ [.fld "totalElements"]) (decodeInt (loc ++ [.fld "totalElements"])))
    accA r2 (defField fields ["projects"] [] (decodeList Project.decode (loc ++ [.fld "projects"])))
  | _ => .error [⟨loc, "Input should be a valid dictionary"⟩]

/-- `CommonApiResponse` from `models/_common.py`: the wire envelope
`status, code, message, data` with an optional generic payload. -/
structure CommonApiResponse (α : Type) where
  status : String
  code : Int
  message : String
  data : Option α
  deriving Repr

/-- `CommonApiResponse[T].model_validate(response_data)`: validate the four
envelope fields (accumulating their errors in declaration order) and the
payload, which sits under the `data` key and is `Optional`, so absent or
null input decodes to `None` here — the `data is None` policy lives one
level up in `parseResponse`. -/
def decodeEnvelope {α : Type} (dec : List LocKey → Json → DecodeResult α)
    (j : Json) : DecodeResult (CommonApiResponse α) :=
  match j with
  | Json.obj fields =>
    let r1 := accA (.ok CommonApiResponse.mk) (reqField fields ["status"] [.fld "status"] (decodeStr [.fld "status"]))
    let r2 := accA r1 (reqField fields ["code"] [.fld "code"] (decodeInt [.fld "code"]))
    let r3 := accA r2 (reqField fields ["message"] [.fld "message"] (decodeStr [.fld "message"]))
    accA r3 (optField fields ["data"] (dec [.fld "data"]))
  | _ => .error [⟨[], "Input should be a valid dictionary"⟩]

/-- Abbreviated textual form of a pydantic `ValidationError`, standing in
for `str(e)` inside the `f"Response validation failed: {e!s}"` message of
`BaseApi._get`.  No theorem below depends on its exact output. -/
def renderErrors (es : List FieldError) : String :=
  toString es.length ++ " validation error(s) for CommonApiResponse"

/-- The response-parsing half of `BaseApi._get` (from `api/_base.py`) when a
`response_type` is given: validate the envelope; a pydantic failure is
re-raised as `ValidationException` carrying `e.errors()`; a validated
envelope whose `data` is `None` raises `ValidationException` with an empty
error list; otherwise the payload is returned — never a null or absent
value. -/
def parseResponse {α : Type} (dec : List LocKey → Json → DecodeResult α)
    (response_data : Json) : Except GetRaise α :=
  match decodeEnvelope dec response_data with
  | .error es =>
    .error (.api (mkValidationException ("Response validation failed: " ++ renderErrors es) (some es)))
  | .ok wrapped =>
    match wrapped.data with
    | Option.none => .error (.api (mkValidationException "Response data is None" (some [])))
    | some v => .ok v

/-- A transport function: what the wire does with one GET request, as
`HttpClient.get` observes it.  The accessors are proved for every such
function. -/
abbrev Transport := String → List (String × PValue) → TransportOutcome

/-- `BaseApi._get` from `api/_base.py` with a `response_type`: clean the
params, perform the HTTP GET, then parse the enveloped response.  (Every
accessor passes a non-empty params dict, so the `if params` guard always
takes the cleaning branch.) -/
def BaseApi.get {α : Type} (dec : List LocKey → Json → DecodeResult α)
    (fetch : Transport) (path : String) (params : List (String × PValue)) : Except GetRaise α :=
  match HttpClient.get (fetch path (clean_params params)) with
  | .error e => .error e
  | .ok response_data => parseResponse dec response_data

/-- `StudentApi.get_students` from `api/student.py`: default request when
none is given, then `_get` against `/v1/students`. -/
def StudentApi.get_students (fetch : Transport) (request : Option StudentRequest) :
    Except GetRaise StudentResponse :=
  let req := request.getD {}
  BaseApi.get StudentResponse.decode fetch "/v1/students" req.to_params

/-- `StudentApi.get_student` from `api/student.py`: list filtered to the
id, first item or `None`. -/
def StudentApi.get_student (fetch : Transport) (student_id : Int) :
    Except GetRaise (Option Student) :=
  match StudentApi.get_students fetch (some { student_id := some student_id }) with
  | .error e => .error e
  | .ok response =>
    match response.students with
    | s :: _ => .ok (some s)
    | [] => .ok Option.none

/-- `ClubApi.get_clubs` from `api/club.py`. -/
def ClubApi.get_clubs (fetch : Transport) (request : Option ClubRequest) :
    Except GetRaise ClubResponse :=
  let req := request.getD {}
  BaseApi.get ClubResponse.decode fetch "/v1/clubs" req.to_params

/-- `ClubApi.get_club` from `api/club.py`: list filtered to the id, first
item or `None`. -/
def ClubApi.get_club (fetch : Transport) (club_id : Int) :
    Except GetRaise (Option ClubDetail) :=
  match ClubApi.get_clubs fetch (some { club_id := some club_id }) with
  | .error e => .error e
  | .ok response =>
    match response.clubs with
    | c :: _ => .ok (some c)
    | [] => .ok Option.none

/-- `ProjectApi.get_projects` from `api/project.py`. -/
def ProjectApi.get_projects (fetch : Transport) (request : Option ProjectRequest) :
    Except GetRaise ProjectResponse :=
  let req := request.getD {}
  BaseApi.get ProjectResponse.decode fetch "/v1/projects" req.to_params

/-- `ProjectApi.get_project` from `api/project.py`: list filtered to the
id, first item or `None`. -/
def ProjectApi.get_project (fetch : Transport) (project_id : Int) :
    Except GetRaise (Option Project) :=
  match ProjectApi.get_projects fetch (some { project_id := some project_id }) with
  | .error e => .error e
  | .ok response =>
    match response.projects with
    | p :: _ => .ok (some p)
    | [] => .ok Option.none

/-- The connection field of `HttpClient`: `self._client` is `None` until
first use (Unopened, and again after `close`), or an open `httpx.Client`.
Handles are numbered so that a freshly constructed `httpx.Client` is
distinguishable from every earlier one: `nextHandle` is the number the next
construction will use. -/
structure ClientState where
  client : Option Nat
  nextHandle : Nat
  deriving Repr, DecidableEq

/-- `HttpClient._get_client` from `_http.py`: return the open connection,
or lazily construct a fresh one when `self._client is None`. -/
def ClientState.getClient (s : ClientState) : ClientState × Nat :=
  match s.client with
  | some c => (s, c)
  | Option.none => (⟨some s.nextHandle, s.nextHandle + 1⟩, s.nextHandle)

/-- `HttpClient.close` from `_http.py`: close and drop the connection when
one is open, do nothing otherwise. -/
def ClientState.close (s : ClientState) : ClientState :=
  match s.client with
  | some _ => ⟨Option.none, s.nextHandle⟩
  | Option.none => s

/-- Handle-numbering discipline: every open handle was issued before
`nextHandle`.  Holds for the initial state and is preserved by both
operations. -/
def ClientState.WF (s : ClientState) : Prop :=
  ∀ c, s.client = some c → c < s.nextHandle

/-! Theorems. -/

/-- A digit character decodes back to its digit. -/
theorem charDigit_ofDigit (k : Nat) (h : k < 10) :
    charDigit (Char.ofNat (48 + k)) = some k := by
  interval_cases k <;> rfl

/-- `digitChar` always decodes back to the source digit. -/
theorem charDigit_digitChar (n : Nat) : charDigit (digitChar n) = some (n % 10) := by
  have h : n % 10 < 10 := Nat.mod_lt _ (by norm_num)
  simpa [digitChar] using charDigit_ofDigit (n % 10) h

/-- Months have at most 31 days. -/
theorem daysInMonth_le_31 (y m : Nat) : daysInMonth y m ≤ 31 := by
  unfold daysInMonth
  split
  · split <;> omega
  · split <;> omega

/-- C7: date serialization is round-trip stable: serializing a date yields
the ISO-8601 `YYYY-MM-DD` string (`2026-02-03` serializes to
`"2026-02-03"`), and decoding that literal back reproduces the same
calendar date, for every valid calendar date. -/
theorem serialize_date_roundtrip :
    serialize_date ⟨2026, 2, 3⟩ = "2026-02-03" ∧
    ∀ d : Date, d.valid = true → parseISODate (serialize_date d) = some d := by
  constructor
  · decide
  · intro d hv
    have hb := hv
    simp only [Date.valid, Bool.and_eq_true, decide_eq_true_eq] at hb
    obtain ⟨⟨⟨⟨⟨hy1, hy2⟩, hm1⟩, hm2⟩, hd1⟩, hd2⟩ := hb
    have hdm : daysInMonth d.year d.month ≤ 31 := daysInMonth_le_31 d.year d.month
    simp only [serialize_date, pad4, pad2, parseISODate, List.cons_append, List.nil_append]
    simp only [charDigit_digitChar]
    rw [if_pos (⟨trivial, trivial⟩ : True ∧ True)]
    have hdate : (⟨d.year / 1000 % 10 * 1000 + d.year / 100 % 10 * 100 + d.year / 10 % 10 * 10 + d.year % 10,
        d.month / 10 % 10 * 10 + d.month % 10,
        d.day / 10 % 10 * 10 + d.day % 10⟩ : Date) = d := by
      obtain ⟨y, m, dd⟩ := d
      simp only [Date.mk.injEq]
      refine ⟨?_, ?_, ?_⟩ <;> simp only at hy2 hm2 hd2 hdm <;> omega
    rw [hdate, hv]
    rfl

/-- Witness for `serialize_date_roundtrip` at the spec's example date. -/
theorem serialize_date_roundtrip_witness :
    parseISODate (serialize_date ⟨2026, 2, 3⟩) = some ⟨2026, 2, 3⟩ :=
  serialize_date_roundtrip.2 ⟨2026, 2, 3⟩ (by decide)

/-- C8: `MealRequest(date=2026-02-03)` normalizes to exactly the single
query parameter `date=2026-02-03`; no `fromDate` or `toDate` key appears. -/
theorem meal_request_single_date_params :
    clean_params (MealRequest.to_params { date := some ⟨2026, 2, 3⟩ }) =
      [("date", PValue.vStr "2026-02-03")] ∧
    (clean_params (MealRequest.to_params { date := some ⟨2026, 2, 3⟩ })).all
      (fun kv => kv.1 ≠ "fromDate" && kv.1 ≠ "toDate") = true := by
  constructor
  · decide
  · decide

/-- Keys of the cleaned mapping all come from the input mapping. -/
theorem clean_params_keys_subset (ps : List (String × PValue)) :
    ∀ k, k ∈ (clean_params ps).map Prod.fst → k ∈ ps.map Prod.fst := by
  induction ps with
  | nil => intro k h; simp [clean_params] at h
  | cons head rest ih =>
    obtain ⟨k0, v0⟩ := head
    intro k h
    cases v0 <;> simp only [clean_params, List.map_cons, List.mem_cons] at h ⊢ <;> tauto

/-- C3: a field whose value is `None` is omitted entirely from the cleaned
mapping (it never appears under its key at all, in particular not as an
empty string or null), and the all-defaults student and club requests clean
to exactly their concretely-defaulted fields and nothing else. -/
theorem absent_fields_omitted :
    (∀ (ps : List (String × PValue)) (k : String), (ps.map Prod.fst).Nodup →
      (k, PValue.vNone) ∈ ps → ∀ v, (k, v) ∉ clean_params ps) ∧
    clean_params (StudentRequest.to_params {}) =
      [("page", PValue.vInt 0), ("size", PValue.vInt 300), ("sortDirection", PValue.vStr "ASC")] ∧
    clean_params (ClubRequest.to_params {}) =
      [("page", PValue.vInt 0), ("size", PValue.vInt 100),
       ("includeLeaderInParticipants", PValue.vStr "false"), ("sortDirection", PValue.vStr "ASC")] := by
  refine ⟨?_, by decide, by decide⟩
  intro ps
  induction ps with
  | nil => intro k _ h; simp at h
  | cons head rest ih =>
    obtain ⟨k0, v0⟩ := head
    intro k nd hmem v hv
    simp only [List.map_cons, List.nodup_cons] at nd
    obtain ⟨hk0, ndrest⟩ := nd
    rcases List.mem_cons.mp hmem with hh | hr
    · obtain ⟨hk, hv0⟩ := Prod.mk.injEq _ _ _ _ ▸ hh
      subst hk
      rw [← hv0] at hv
      simp only [clean_params] at hv
      exact hk0 (clean_params_keys_subset rest k (List.mem_map_of_mem Prod.fst hv))
    · have hkrest : k ∈ rest.map Prod.fst := List.mem_map_of_mem Prod.fst hr
      have hne : k0 ≠ k := fun he => hk0 (he ▸ hkrest)
      cases v0 <;> simp only [clean_params, List.mem_cons] at hv
      · exact ih k ndrest hr v hv
      all_goals rcases hv with he | hv
      case vInt.inl => exact hne (congrArg Prod.fst he).symm
      case vInt.inr => exact ih k ndrest hr v hv
      case vStr.inl => exact hne (congrArg Prod.fst he).symm
      case vStr.inr => exact ih k ndrest hr v hv
      case vBool.inl => exact hne (congrArg Prod.fst he).symm
      case vBool.inr => exact ih k ndrest hr v hv
      case vDate.inl => exact hne (congrArg Prod.fst he).symm
      case vDate.inr => exact ih k ndrest hr v hv

/-- Witness for `absent_fields_omitted` at a concrete mapping. -/
theorem absent_fields_omitted_witness :
    ("grade", PValue.vInt 2) ∉
      clean_params [("grade", PValue.vNone), ("page", PValue.vInt 0)] :=
  absent_fields_omitted.1 [("grade", PValue.vNone), ("page", PValue.vInt 0)]
    "grade" (by decide) (by decide) (PValue.vInt 2)

/-- C6: every boolean-valued parameter is cleaned to the literal lowercase
string `"true"`/`"false"`, and no native boolean value ever survives into
the cleaned mapping. -/
theorem bool_params_serialized :
    (∀ (ps : List (String × PValue)) (k : String) (b : Bool), (k, PValue.vBool b) ∈ ps →
      (k, PValue.vStr (boolLower b)) ∈ clean_params ps) ∧
    (∀ (ps : List (String × PValue)) (k : String) (b : Bool),
      (k, PValue.vBool b) ∉ clean_params ps) ∧
    boolLower true = "true" ∧ boolLower false = "false" := by
  refine ⟨?_, ?_, rfl, rfl⟩
  · intro ps
    induction ps with
    | nil => intro k b h; simp at h
    | cons head rest ih =>
      obtain ⟨k0, v0⟩ := head
      intro k b hmem
      rcases List.mem_cons.mp hmem with hh | hr
      · obtain ⟨hk, hv0⟩ := Prod.mk.injEq _ _ _ _ ▸ hh
        subst hk
        rw [← hv0]
        simp [clean_params]
      · cases v0 <;> simp only [clean_params, List.mem_cons] <;>
          first
          | exact ih k b hr
          | exact Or.inr (ih k b hr)
  · intro ps
    induction ps with
    | nil => intro k b h; simp [clean_params] at h
    | cons head rest ih =>
      obtain ⟨k0, v0⟩ := head
      intro k b hv
      cases v0 <;> simp only [clean_params, List.mem_cons] at hv
      · exact ih k b hv
      all_goals rcases hv with he | hv
      case vInt.inl => simp at he
      case vInt.inr => exact ih k b hv
      case vStr.inl => simp at he
      case vStr.inr => exact ih k b hv
      case vBool.inl => simp at he
      case vBool.inr => exact ih k b hv
      case vDate.inl => simp at he
      case vDate.inr => exact ih k b hv

/-- Witness for `bool_params_serialized` at a concrete mapping. -/
theorem bool_params_serialized_witness :
    ("isGraduated", PValue.vStr "true") ∈
      clean_params [("isGraduated", PValue.vBool true)] :=
  bool_params_serialized.1 [("isGraduated", PValue.vBool true)]
    "isGraduated" true (by decide)

/-- C10: each fixed-code constructor pins its status code no matter the
arguments; network and validation errors have no status code, so their
string form is just their message; and a validation error constructed with
an absent (`None`) error list stores the empty list. -/
theorem exception_constructor_invariants :
    (∀ m b, (mkBadRequestException m b).statusCode = some 400) ∧
    (∀ m b, (mkUnauthorizedException m b).statusCode = some 401) ∧
    (∀ m b, (mkForbiddenException m b).statusCode = some 403) ∧
    (∀ m b, (mkNotFoundException m b).statusCode = some 404) ∧
    (∀ m b, (mkRateLimitException m b).statusCode = some 429) ∧
    (∀ m c, (mkNetworkException m c).statusCode = Option.none ∧
      (mkNetworkException m c).strForm = m) ∧
    (∀ m v, (mkValidationException m v).statusCode = Option.none ∧
      (mkValidationException m v).strForm = m) ∧
    (∀ m, mkValidationException m Option.none = DGError.validation m []) ∧
    (∀ m l, mkValidationException m (some l) = DGError.validation m l) :=
  ⟨fun _ _ => rfl, fun _ _ => rfl, fun _ _ => rfl, fun _ _ => rfl, fun _ _ => rfl,
   fun _ _ => ⟨rfl, rfl⟩, fun _ _ => ⟨rfl, rfl⟩, fun _ => rfl, fun _ _ => rfl⟩

/-- C9: the connection follows the Unopened/Open/Closed state machine:
acquisition is lazy (first use constructs the connection), an open
connection is reused as-is, close on an unopened or already-closed state is
a no-op (close is idempotent), and a request after close re-establishes a
fresh connection — one distinct from every handle issued before — instead
of failing. -/
theorem connection_lifecycle :
    (∀ n, ClientState.getClient ⟨Option.none, n⟩ = (⟨some n, n + 1⟩, n)) ∧
    (∀ s c, s.client = some c → ClientState.getClient s = (s, c)) ∧
    (∀ s, s.client = Option.none → ClientState.close s = s) ∧
    (∀ s, ClientState.close (ClientState.close s) = ClientState.close s) ∧
    (∀ s : ClientState, ClientState.getClient (ClientState.close s) =
      (⟨some s.nextHandle, s.nextHandle + 1⟩, s.nextHandle)) ∧
    (∀ s c, s.WF → s.client = some c →
      (ClientState.getClient (ClientState.close s)).2 ≠ c) ∧
    (ClientState.WF ⟨Option.none, 0⟩) ∧
    (∀ s : ClientState, s.WF → (s.getClient.1.WF ∧ s.close.WF)) := by
  refine ⟨fun n => rfl, ?_, ?_, ?_, ?_, ?_, ?_, ?_⟩
  · intro s c h
    obtain ⟨cl, n⟩ := s
    cases cl
    · simp at h
    · simp only [Option.some.injEq] at h
      subst h
      rfl
  · intro s h
    obtain ⟨cl, n⟩ := s
    cases cl
    · rfl
    · simp at h
  · intro s
    obtain ⟨cl, n⟩ := s
    cases cl <;> rfl
  · intro s
    obtain ⟨cl, n⟩ := s
    cases cl <;> rfl
  · intro s c hwf hc
    have hlt := hwf c hc
    obtain ⟨cl, n⟩ := s
    have hlt2 : c < n := hlt
    cases cl
    · simp at hc
    · simp only [ClientState.close, ClientState.getClient]
      show n ≠ c
      omega
  · intro c h
    simp at h
  · intro s hwf
    obtain ⟨cl, n⟩ := s
    constructor
    · cases cl
      · intro c h
        simp only [ClientState.getClient] at h
        have h2 : n = c := Option.some.inj h
        show c < n + 1
        omega
      · exact hwf
    · cases cl
      · exact hwf
      · intro c h
        simp [ClientState.close] at h

/-- C1: every non-2xx response raises exactly the taxonomy member its
status code selects — 400, 401, 403, 404 (message taken from the body's
`message` field), 429, any 5xx as a server error carrying that specific
status code, and every other non-2xx as the generic error carrying status
code and body — while connect failures and timeouts (no response) raise a
network error with a non-null underlying cause. -/
theorem transport_error_taxonomy :
    (∀ r : HttpResponse,
      (r.status = 400 → HttpClient.get (.response r) =
        .error (.api (DGError.badRequest (extractedMessage r) (extractedBody r)))) ∧
      (r.status = 401 → HttpClient.get (.response r) =
        .error (.api (DGError.unauthorized (extractedMessage r) (extractedBody r)))) ∧
      (r.status = 403 → HttpClient.get (.response r) =
        .error (.api (DGError.forbidden (extractedMessage r) (extractedBody r)))) ∧
      (r.status = 404 → HttpClient.get (.response r) =
        .error (.api (DGError.notFound (extractedMessage r) (extractedBody r)))) ∧
      (r.status = 429 → HttpClient.get (.response r) =
        .error (.api (DGError.rateLimit (extractedMessage r) (extractedBody r)))) ∧
      (500 ≤ r.status → r.status < 600 → HttpClient.get (.response r) =
        .error (.api (DGError.serverError (extractedMessage r) r.status (extractedBody r))) ∧
        (handle_error r).statusCode = some r.status) ∧
      (¬(200 ≤ r.status ∧ r.status < 300) → r.status ≠ 400 → r.status ≠ 401 →
        r.status ≠ 403 → r.status ≠ 404 → r.status ≠ 429 →
        ¬(500 ≤ r.status ∧ r.status < 600) → HttpClient.get (.response r) =
          .error (.api (DGError.dataGsm (extractedMessage r) (some r.status) (extractedBody r))))) ∧
    extractedMessage ⟨404, "", some (Json.obj [("message", Json.str "not found")])⟩ = "not found" ∧
    (∀ d, HttpClient.get (.connectFailure d) =
      .error (.api (DGError.network ("Network error: " ++ d) (some (.connectError d)))) ∧
      (DGError.network ("Network error: " ++ d) (some (.connectError d))).originalException ≠ Option.none) ∧
    (∀ d, HttpClient.get (.timeoutFailure d) =
      .error (.api (DGError.network ("Network error: " ++ d) (some (.timeoutError d)))) ∧
      (DGError.network ("Network error: " ++ d) (some (.timeoutError d))).originalException ≠ Option.none) := by
  refine ⟨?_, rfl, fun d => ⟨rfl, by simp [DGError.originalException]⟩,
    fun d => ⟨rfl, by simp [DGError.originalException]⟩⟩
  intro r
  refine ⟨?_, ?_, ?_, ?_, ?_, ?_, ?_⟩
  · intro h
    simp only [HttpClient.get, handle_error, h, mkBadRequestException]
    norm_num
  · intro h
    simp only [HttpClient.get, handle_error, h, mkUnauthorizedException]
    norm_num
  · intro h
    simp only [HttpClient.get, handle_error, h, mkForbiddenException]
    norm_num
  · intro h
    simp only [HttpClient.get, handle_error, h, mkNotFoundException]
    norm_num
  · intro h
    simp only [HttpClient.get, handle_error, h, mkRateLimitException]
    norm_num
  · intro h1 h2
    constructor
    · simp only [HttpClient.get]
      rw [if_neg (by omega)]
      simp only [handle_error, mkServerErrorException]
      rw [if_neg (by omega), if_neg (by omega), if_neg (by omega), if_neg (by omega),
        if_neg (by omega), if_pos (by omega)]
    · simp only [handle_error, mkServerErrorException]
      rw [if_neg (by omega), if_neg (by omega), if_neg (by omega), if_neg (by omega),
        if_neg (by omega), if_pos (by omega)]
      rfl
  · intro h2xx h400 h401 h403 h404 h429 h5xx
    simp only [HttpClient.get]
    rw [if_neg h2xx]
    simp only [handle_error, mkDataGsmException]
    rw [if_neg h400, if_neg h401, if_neg h403, if_neg h404, if_neg h429, if_neg h5xx]

/-- Witness for `transport_error_taxonomy`: a 404 with body
`message: not found` and a 503 with an empty body, at concrete inputs. -/
theorem transport_error_taxonomy_witness :
    HttpClient.get (.response ⟨404, "", some (Json.obj [("message", Json.str "not found")])⟩) =
      .error (.api (DGError.notFound "not found"
        (some (Json.obj [("message", Json.str "not found")])))) ∧
    (handle_error ⟨503, "oops", Option.none⟩).statusCode = some 503 :=
  ⟨(transport_error_taxonomy.1 ⟨404, "", some (Json.obj [("message", Json.str "not found")])⟩).2.2.2.1 rfl,
   ((transport_error_taxonomy.1 ⟨503, "oops", Option.none⟩).2.2.2.2.2.1 (by norm_num) (by norm_num)).2⟩

/-- Witness for `connection_lifecycle` at a concrete state. -/
theorem connection_lifecycle_witness :
    ClientState.getClient ⟨some 5, 6⟩ = (⟨some 5, 6⟩, 5) :=
  connection_lifecycle.2.1 ⟨some 5, 6⟩ 5 rfl

/-- C2: an envelope whose `data` field is null — or absent — where a
required payload was requested raises `ValidationException` with an empty
detail list; the payload is never handed back null or absent. -/
theorem envelope_null_data_raises :
    (∀ (α : Type) (dec : List LocKey → Json → DecodeResult α) (st m : String) (c : Int),
      parseResponse dec (Json.obj [("status", Json.str st), ("code", Json.num c),
          ("message", Json.str m), ("data", Json.null)]) =
        .error (.api (DGError.validation "Response data is None" []))) ∧
    (∀ (α : Type) (dec : List LocKey → Json → DecodeResult α) (st m : String) (c : Int),
      parseResponse dec (Json.obj [("status", Json.str st), ("code", Json.num c),
          ("message", Json.str m)]) =
        .error (.api (DGError.validation "Response data is None" []))) :=
  ⟨fun _ _ _ _ _ => rfl, fun _ _ _ _ _ => rfl⟩

/-- The response of the C5 scenario: a well-formed envelope whose nested
`clubs[0].type` carries a wire value outside the closed `ClubType` set. -/
def unknownClubTypeResponse : Json :=
  Json.obj [("status", Json.str "success"), ("code", Json.num 200),
    ("message", Json.str "ok"),
    ("data", Json.obj [("totalPages", Json.num 1), ("totalElements", Json.num 1),
      ("clubs", Json.arr [Json.obj [("id", Json.num 1), ("name", Json.str "C"),
        ("type", Json.str "SECRET_CLUB"),
        ("leader", Json.obj [("id", Json.num 2), ("name", Json.str "L"),
          ("email", Json.str "l@gsm.hs.kr"), ("studentNumber", Json.num 2101),
          ("major", Json.str "AI"), ("sex", Json.str "MAN")]),
        ("participants", Json.arr [])]])])]

/-- C5: a response that fails payload validation raises a Validation error
carrying the decoder's structured field-level error list; an unknown enum
value (such as an unknown `clubType`) is always a decode failure, never
accepted; and in the concrete unknown-`clubType` scenario the raised error
carries a field-level entry whose location references the failing `type`
field. -/
theorem decode_failure_raises_validation :
    (∀ (α : Type) (dec : List LocKey → Json → DecodeResult α) (j : Json) (es : List FieldError),
      decodeEnvelope dec j = .error es →
      parseResponse dec j =
        .error (.api (DGError.validation ("Response validation failed: " ++ renderErrors es) es))) ∧
    (∀ (α : Type) (dec : List LocKey → Json → DecodeResult α) (st m : String) (c : Int)
        (d : Json) (es : List FieldError), d ≠ Json.null → dec [.fld "data"] d = .error es →
      decodeEnvelope dec (Json.obj [("status", Json.str st), ("code", Json.num c),
          ("message", Json.str m), ("data", d)]) = .error es) ∧
    (∀ (s : String) (loc : List LocKey), ClubType.fromWire s = Option.none →
      decodeClubType loc (Json.str s) =
        .error [⟨loc, "Input should be MAJOR_CLUB, JOB_CLUB or AUTONOMOUS_CLUB"⟩]) ∧
    (parseResponse ClubResponse.decode unknownClubTypeResponse =
      .error (.api (DGError.validation
        ("Response validation failed: " ++ renderErrors
          [⟨[.fld "data", .fld "clubs", .idx 0, .fld "type"],
            "Input should be MAJOR_CLUB, JOB_CLUB or AUTONOMOUS_CLUB"⟩])
        [⟨[.fld "data", .fld "clubs", .idx 0, .fld "type"],
          "Input should be MAJOR_CLUB, JOB_CLUB or AUTONOMOUS_CLUB"⟩])) ∧
      LocKey.fld "type" ∈ [LocKey.fld "data", LocKey.fld "clubs", LocKey.idx 0, LocKey.fld "type"]) := by
  refine ⟨?_, ?_, ?_, rfl, by decide⟩
  · intro α dec j es h
    simp only [parseResponse, h]
    rfl
  · intro α dec st m c d es hnn hdec
    cases d
    case null => exact absurd rfl hnn
    all_goals simp only [decodeEnvelope, reqField, optField, findField, lookupField,
      decodeStr, decodeInt, accA, Except.map, String.reduceEq, if_true, if_false, hdec]
  · intro s loc h
    simp only [decodeClubType, h]

/-- Witness for `decode_failure_raises_validation` at concrete inputs. -/
theorem decode_failure_raises_validation_witness :
    decodeClubType [LocKey.fld "type"] (Json.str "SECRET_CLUB") =
      .error [⟨[LocKey.fld "type"], "Input should be MAJOR_CLUB, JOB_CLUB or AUTONOMOUS_CLUB"⟩] :=
  decode_failure_raises_validation.2.2.1 "SECRET_CLUB" [LocKey.fld "type"] rfl

/-- C4: each get-single-by-id operation builds the request filtered to the
id, delegates to the corresponding list operation, and surfaces the first
item of the returned collection — `None`, never an error, when the
collection is empty.  Stated as the delegation equation (which also carries
error passthrough) plus the empty/non-empty consequences, for each of the
three resources, over every transport. -/
theorem get_single_delegates_to_list :
    (∀ (fetch : Transport) (id : Int),
      StudentApi.get_student fetch id =
        (StudentApi.get_students fetch (some { student_id := some id })).map
          (fun resp => resp.students.head?)) ∧
    (∀ (fetch : Transport) (id : Int) (resp : StudentResponse),
      StudentApi.get_students fetch (some { student_id := some id }) = .ok resp →
      resp.students = [] → StudentApi.get_student fetch id = .ok Option.none) ∧
    (∀ (fetch : Transport) (id : Int) (resp : StudentResponse) (s : Student) (rest : List Student),
      StudentApi.get_students fetch (some { student_id := some id }) = .ok resp →
      resp.students = s :: rest → StudentApi.get_student fetch id = .ok (some s)) ∧
    (∀ (fetch : Transport) (id : Int),
      ClubApi.get_club fetch id =
        (ClubApi.get_clubs fetch (some { club_id := some id })).map
          (fun resp => resp.clubs.head?)) ∧
    (∀ (fetch : Transport) (id : Int) (resp : ClubResponse),
      ClubApi.get_clubs fetch (some { club_id := some id }) = .ok resp →
      resp.clubs = [] → ClubApi.get_club fetch id = .ok Option.none) ∧
    (∀ (fetch : Transport) (id : Int) (resp : ClubResponse) (c : ClubDetail) (rest : List ClubDetail),
      ClubApi.get_clubs fetch (some { club_id := some id }) = .ok resp →
      resp.clubs = c :: rest → ClubApi.get_club fetch id = .ok (some c)) ∧
    (∀ (fetch : Transport) (id : Int),
      ProjectApi.get_project fetch id =
        (ProjectApi.get_projects fetch (some { project_id := some id })).map
          (fun resp => resp.projects.head?)) ∧
    (∀ (fetch : Transport) (id : Int) (resp : ProjectResponse),
      ProjectApi.get_projects fetch (some { project_id := some id }) = .ok resp →
      resp.projects = [] → ProjectApi.get_project fetch id = .ok Option.none) ∧
    (∀ (fetch : Transport) (id : Int) (resp : ProjectResponse) (p : Project) (rest : List Project),
      ProjectApi.get_projects fetch (some { project_id := some id }) = .ok resp →
      resp.projects = p :: rest → ProjectApi.get_project fetch id = .ok (some p)) := by
  have hs : ∀ (fetch : Transport) (id : Int),
      StudentApi.get_student fetch id =
        (StudentApi.get_students fetch (some { student_id := some id })).map
          (fun resp => resp.students.head?) := by
    intro fetch id
    simp only [StudentApi.get_student]
    cases h : StudentApi.get_students fetch (some { student_id := some id }) with
    | error e => rfl
    | ok r =>
      obtain ⟨students, te, tp⟩ := r
      cases students <;> rfl
  have hc : ∀ (fetch : Transport) (id : Int),
      ClubApi.get_club fetch id =
        (ClubApi.get_clubs fetch (some { club_id := some id })).map
          (fun resp => resp.clubs.head?) := by
    intro fetch id
    simp only [ClubApi.get_club]
    cases h : ClubApi.get_clubs fetch (some { club_id := some id }) with
    | error e => rfl
    | ok r =>
      obtain ⟨tp, te, clubs⟩ := r
      cases clubs <;> rfl
  have hp : ∀ (fetch : Transport) (id : Int),
      ProjectApi.get_project fetch id =
        (ProjectApi.get_projects fetch (some { project_id := some id })).map
          (fun resp => resp.projects.head?) := by
    intro fetch id
    simp only [ProjectApi.get_project]
    cases h : ProjectApi.get_projects fetch (some { project_id := some id }) with
    | error e => rfl
    | ok r =>
      obtain ⟨tp, te, projects⟩ := r
      cases projects <;> rfl
  refine ⟨hs, ?_, ?_, hc, ?_, ?_, hp, ?_, ?_⟩
  · intro fetch id resp h hnil
    rw [hs fetch id, h, Except.map, hnil]
    rfl
  · intro fetch id resp s rest h hcons
    rw [hs fetch id, h, Except.map, hcons]
    rfl
  · intro fetch id resp h hnil
    rw [hc fetch id, h, Except.map, hnil]
    rfl
  · intro fetch id resp c rest h hcons
    rw [hc fetch id, h, Except.map, hcons]
    rfl
  · intro fetch id resp h hnil
    rw [hp fetch id, h, Except.map, hnil]
    rfl
  · intro fetch id resp p rest h hcons
    rw [hp fetch id, h, Except.map, hcons]
    rfl

/-- A transport that always answers 200 with an envelope carrying an empty
student page: the empty-result scenario of the get-single contract. -/
def emptyStudentsFetch : Transport := fun _ _ =>
  .response ⟨200, "", some (Json.obj [("status", Json.str "success"),
    ("code", Json.num 200), ("message", Json.str "ok"),
    ("data", Json.obj [("students", Json.arr []), ("totalElements", Json.num 0),
      ("totalPages", Json.num 0)])])⟩

/-- Witness for `get_single_delegates_to_list`: against a service returning
zero matches, `get_student` yields the absence signal. -/
theorem get_single_delegates_to_list_witness :
    StudentApi.get_student emptyStudentsFetch 7 = .ok Option.none :=
  get_single_delegates_to_list.2.1 emptyStudentsFetch 7 ⟨[], 0, 0⟩ rfl rfl

end DataGsm
